import Mathlib

/-!
Verification of the mock store service of a todo-list application.

The embedded code is the mock API module (`fetchTodos`, `createTodo`,
`updateTodo`, `deleteTodo` over a module-level mutable `todos` array) and its
type declarations (`Todo`, `CreateTodoRequest`, `UpdateTodoRequest`,
`ApiResponse`).

Modelling choices:
* The module-level mutable array `todos` becomes explicit state passing: every
  operation takes the current collection and returns the new collection paired
  with its response envelope.  `fetchTodos` never assigns to the collection, so
  its model returns the collection unchanged.
* Timestamps are the ISO-8601 UTC strings the code stores (produced by
  `new Date().toISOString()`).  Such strings all have the same length and their
  lexicographic order on character codes coincides with chronological order, so
  "time a is before time b" is embedded as `a.data < b.data` (lexicographic
  order on the underlying character lists).  The current time at an operation
  is an explicit `now` argument; the two consecutive `new Date().toISOString()`
  calls inside `createTodo` run in the same synchronous segment and are
  modelled as the single instant `now`.
* `Math.random() < 0.05` inside `shouldFail` is a draw from a float source; it
  is embedded as an abstract boolean argument `draw` (true exactly when the
  drawn float is below the 0.05 threshold), quantified over in every theorem.
* Optional fields of `UpdateTodoRequest` and of `ApiResponse` become `Option`;
  an absent field is `none`.  The object spread
  `{...todos[todoIndex], ...todoData, updatedAt: ...}` keeps a field of the old
  record exactly when `todoData` does not supply it.
-/

/-- Task record, from the `Todo` interface: timestamps are the stored
ISO-8601 strings. -/
structure Todo where
  id : String
  title : String
  description : String
  completed : Bool
  createdAt : String
  updatedAt : String
deriving DecidableEq, Repr

/-- Payload of the create operation, from the `CreateTodoRequest` interface. -/
structure CreateTodoRequest where
  title : String
  description : String
deriving DecidableEq, Repr

/-- Payload of the update operation, from the `UpdateTodoRequest` interface:
`title`, `description` and `completed` are optional. -/
structure UpdateTodoRequest where
  id : String
  title : Option String
  description : Option String
  completed : Option Bool
deriving DecidableEq, Repr

/-- Response envelope, from the `ApiResponse<T>` interface: `data`, `error` and
`message` are optional. -/
structure ApiResponse (T : Type) where
  success : Bool
  data : Option T
  error : Option String
  message : Option String
deriving DecidableEq, Repr

/-- Chronological strict order on ISO-8601 UTC timestamp strings:
lexicographic order on the character lists (all stored timestamps have equal
length, for which lexicographic and chronological order agree). -/
def tsLt (a b : String) : Prop := a.data < b.data

instance (a b : String) : Decidable (tsLt a b) := by
  unfold tsLt; infer_instance

/-- Seed collection: the module-level `todos` array literal. -/
def todos : List Todo := [
  { id := "1",
    title := "Go to the gym",
    description := "Build up my body for summer time",
    completed := false,
    createdAt := "2025-09-01T11:00:00Z",
    updatedAt := "2025-09-01T10:00:00Z" },
  { id := "2",
    title := "Wait fo FC26 to be launched",
    description := "Cant wait to see the new features",
    completed := true,
    createdAt := "2025-09-07T11:00:00Z",
    updatedAt := "2025-09-08T12:00:00Z" },
  { id := "3",
    title := "Update my portfolio",
    description := "Add my recent projects",
    completed := false,
    createdAt := "2025-09-03T13:00:00Z",
    updatedAt := "2025-09-05T13:00:00Z" }]

/-- Failure injector (`shouldFail`): returns `false` when the operation is
`'fetch'`, otherwise the outcome of the comparison `Math.random() < 0.05`,
embedded as the abstract boolean `draw`. -/
def shouldFail (operation : Option String) (draw : Bool) : Bool :=
  if operation = some "fetch" then false else draw

/-- Identifier generation (`generateId`): concatenation of a timestamp-derived
component (`Date.now().toString(36)`) and a random component
(`Math.random().toString(36).substr(2)`), both embedded as the strings they
produce. -/
def generateId (timeComponent randomComponent : String) : String :=
  timeComponent ++ randomComponent

/-- Index of the first record whose `id` equals `id`, as
`todos.findIndex(todo => todo.id === todoData.id)` computes it (`none` stands
for the index `-1`). -/
def findTodoIndex (l : List Todo) (id : String) : Option Nat :=
  match l with
  | [] => none
  | t :: rest => if t.id = id then some 0 else (findTodoIndex rest id).map (· + 1)

/-- Model of `fetchTodos`: the `delay` call is a pure wait, `shouldFail('fetch')`
is `false` so the `throw` branch is dead but kept; the function never assigns to
the collection, so the model returns it unchanged together with the envelope
(whose `data` is the copy `[...todos]`). -/
def fetchTodos (todos : List Todo) (draw : Bool) :
    List Todo × ApiResponse (List Todo) :=
  if shouldFail (some "fetch") draw then
    (todos, { success := false, data := none,
              error := some "Failed to fetch todos. Please try again.",
              message := none })
  else
    (todos, { success := true, data := some todos, error := none,
              message := some "Todos fetched successfully" })

/-- Model of `createTodo`: on a failing draw the thrown error is caught and
converted to a failure envelope with the collection untouched; otherwise the
new record is built from the trimmed inputs, stamped with `now` for both
timestamps, given the generated id, and pushed onto the collection. -/
def createTodo (todos : List Todo) (todoData : CreateTodoRequest) (draw : Bool)
    (timeComponent randomComponent : String) (now : String) :
    List Todo × ApiResponse Todo :=
  if shouldFail none draw then
    (todos, { success := false, data := none,
              error := some "Failed to create todo. Please try again.",
              message := none })
  else
    let newTodo : Todo := {
      id := generateId timeComponent randomComponent,
      title := todoData.title.trim,
      description := todoData.description.trim,
      completed := false,
      createdAt := now,
      updatedAt := now }
    (todos ++ [newTodo],
     { success := true, data := some newTodo, error := none,
       message := some "Todo created successfully" })

/-- The spread `{...todos[todoIndex], ...todoData, updatedAt: now}`: fields of
`todoData` (including its mandatory `id`) overwrite those of the old record
when supplied, `updatedAt` is then overwritten with `now`. -/
def mergeTodo (old : Todo) (todoData : UpdateTodoRequest) (now : String) : Todo :=
  { id := todoData.id,
    title := todoData.title.getD old.title,
    description := todoData.description.getD old.description,
    completed := todoData.completed.getD old.completed,
    createdAt := old.createdAt,
    updatedAt := now }

/-- Model of `updateTodo`: failing draw, then `findIndex`; index `-1` raises
`Todo not found`; otherwise the merged record is written back in place.  The
inner `none` branch of the lookup is unreachable (the found index is in
bounds) and returns the not-found envelope. -/
def updateTodo (todos : List Todo) (todoData : UpdateTodoRequest) (draw : Bool)
    (now : String) : List Todo × ApiResponse Todo :=
  if shouldFail none draw then
    (todos, { success := false, data := none,
              error := some "Failed to update todo. Please try again.",
              message := none })
  else
    match findTodoIndex todos todoData.id with
    | none =>
        (todos, { success := false, data := none,
                  error := some "Todo not found", message := none })
    | some todoIndex =>
        match todos[todoIndex]? with
        | none =>
            (todos, { success := false, data := none,
                      error := some "Todo not found", message := none })
        | some old =>
            let updatedTodo := mergeTodo old todoData now
            (todos.set todoIndex updatedTodo,
             { success := true, data := some updatedTodo, error := none,
               message := some "Todo updated successfully" })

/-- Model of `deleteTodo`: failing draw, then `findIndex`; index `-1` raises
`Todo not found`; otherwise `splice(todoIndex, 1)` removes the record.  The
success payload `data: null` is `some ()`; every failure envelope carries the
extra `message: 'Failed to delete todo'` from the catch block. -/
def deleteTodo (todos : List Todo) (id : String) (draw : Bool) :
    List Todo × ApiResponse Unit :=
  if shouldFail none draw then
    (todos, { success := false, data := none,
              error := some "Failed to delete todo. Please try again.",
              message := some "Failed to delete todo" })
  else
    match findTodoIndex todos id with
    | none =>
        (todos, { success := false, data := none,
                  error := some "Todo not found",
                  message := some "Failed to delete todo" })
    | some todoIndex =>
        (todos.eraseIdx todoIndex,
         { success := true, data := some (), error := none,
           message := some "Todo deleted successfully" })

/-- One invocation of one of the four operations, with the inputs it consumes:
the payload, the components of the generated id, and the current time. -/
inductive Op where
  | fetch : Op
  | create : CreateTodoRequest → String → String → String → Op
  | update : UpdateTodoRequest → String → Op
  | delete : String → Op
deriving DecidableEq, Repr

/-- State reached after one operation (the response envelope is dropped). -/
def runOp (todos : List Todo) (op : Op) (draw : Bool) : List Todo :=
  match op with
  | Op.fetch => (fetchTodos todos draw).1
  | Op.create req tc rc now => (createTodo todos req draw tc rc now).1
  | Op.update req now => (updateTodo todos req draw now).1
  | Op.delete id => (deleteTodo todos id draw).1

/-- State reached after a sequence of operations, each with its own draw. -/
def runOps (todos : List Todo) : List (Op × Bool) → List Todo
  | [] => todos
  | (op, draw) :: rest => runOps (runOp todos op draw) rest

/-- The ids of the records in the collection are pairwise distinct. -/
def idsNodup (todos : List Todo) : Prop := (todos.map Todo.id).Nodup

instance (todos : List Todo) : Decidable (idsNodup todos) := by
  unfold idsNodup; infer_instance

/-- Every create in the script generates an id not present in the collection
at the moment it runs. -/
def FreshRun : List Todo → List (Op × Bool) → Prop
  | _, [] => True
  | todos, (op, draw) :: rest =>
      (match op with
       | Op.create _ tc rc _ => generateId tc rc ∉ todos.map Todo.id
       | _ => True) ∧ FreshRun (runOp todos op draw) rest

/-- Well-formedness of a response envelope: a success carries `data` and
`message` and no `error`; a failure carries a non-empty `error` and no
`data`. -/
def wellFormed {T : Type} (r : ApiResponse T) : Prop :=
  if r.success then
    r.data.isSome = true ∧ r.message.isSome = true ∧ r.error = none
  else
    (∃ e, r.error = some e ∧ e ≠ "") ∧ r.data = none

/-! Helper lemmas about `findTodoIndex` and list updates. -/

theorem findTodoIndex_none_iff (l : List Todo) (id : String) :
    findTodoIndex l id = none ↔ ∀ t ∈ l, t.id ≠ id := by
  induction l with
  | nil => simp [findTodoIndex]
  | cons t rest ih =>
    by_cases h : t.id = id
    · simp [findTodoIndex, h]
    · simp [findTodoIndex, h, ih]

theorem findTodoIndex_some (l : List Todo) (id : String) (i : Nat)
    (h : findTodoIndex l id = some i) :
    ∃ old, l[i]? = some old ∧ old.id = id := by
  induction l generalizing i with
  | nil => simp [findTodoIndex] at h
  | cons t rest ih =>
    by_cases ht : t.id = id
    · simp [findTodoIndex, ht] at h
      exact h ▸ ⟨t, by simp, ht⟩
    · simp [findTodoIndex, ht] at h
      obtain ⟨j, hj, rfl⟩ := h
      obtain ⟨old, h1, h2⟩ := ih j hj
      exact ⟨old, by simpa using h1, h2⟩

theorem findTodoIndex_lt_length (l : List Todo) (id : String) (i : Nat)
    (h : findTodoIndex l id = some i) : i < l.length := by
  obtain ⟨old, h1, _⟩ := findTodoIndex_some l id i h
  exact List.getElem?_eq_some_iff.mp h1 |>.choose

theorem findTodoIndex_isSome (l : List Todo) (id : String) (t : Todo)
    (ht : t ∈ l) (hid : t.id = id) : (findTodoIndex l id).isSome = true := by
  cases hfind : findTodoIndex l id with
  | none => exact absurd hid ((findTodoIndex_none_iff l id).mp hfind t ht)
  | some i => rfl

theorem findTodoIndex_set_self (l : List Todo) (id : String) (i : Nat) (newT : Todo)
    (h : findTodoIndex l id = some i) (hid : newT.id = id) :
    findTodoIndex (l.set i newT) id = some i := by
  induction l generalizing i with
  | nil => simp [findTodoIndex] at h
  | cons t rest ih =>
    by_cases ht : t.id = id
    · simp [findTodoIndex, ht] at h
      subst h
      simp [findTodoIndex, hid]
    · simp [findTodoIndex, ht] at h
      obtain ⟨j, hj, rfl⟩ := h
      simp [findTodoIndex, ht, ih j hj]

theorem set_getElem_self {α : Type} (l : List α) (i : Nat) (a : α)
    (h : l[i]? = some a) : l.set i a = l := by
  induction l generalizing i with
  | nil => simp at h
  | cons x xs ih =>
    cases i with
    | zero => simp at h; simp [h]
    | succ j => simp at h; simp [ih j h]

theorem nodup_append_singleton {α : Type} (l : List α) (a : α)
    (h : l.Nodup) (ha : a ∉ l) : (l ++ [a]).Nodup := by
  simp [List.nodup_append, h, ha]

/-! Claim theorems. -/

/-- C6: for every store state and every outcome of the random draw, the list
operation returns an envelope with `success = true` whose `data` is a copy of
the full current collection, and the collection is unchanged. -/
theorem C6_fetch_always_succeeds (todos : List Todo) (draw : Bool) :
    (fetchTodos todos draw).2.success = true ∧
    (fetchTodos todos draw).2.data = some todos ∧
    (fetchTodos todos draw).1 = todos := by
  simp [fetchTodos, shouldFail]

/-- C3: every successful create returns a record with `completed = false` and
`createdAt = updatedAt`, whose title and description are the trimmed inputs,
and appends exactly that record to the end of the collection. -/
theorem C3_create_success (todos : List Todo) (todoData : CreateTodoRequest)
    (draw : Bool) (timeComponent randomComponent now : String)
    (hok : shouldFail none draw = false) :
    (createTodo todos todoData draw timeComponent randomComponent now).2.success = true ∧
    ∃ t, (createTodo todos todoData draw timeComponent randomComponent now).2.data = some t ∧
      t.completed = false ∧
      t.createdAt = t.updatedAt ∧
      t.title = todoData.title.trim ∧
      t.description = todoData.description.trim ∧
      (createTodo todos todoData draw timeComponent randomComponent now).1 = todos ++ [t] := by
  simp [createTodo, hok]

/-- C3 witness: the create theorem applied to the seed collection and a
concrete request with un-trimmed inputs, on a non-failing draw. -/
theorem C3_create_success_witness :
    shouldFail none false = false ∧
    ((createTodo todos ⟨"  Buy milk ", " 2 liters "⟩ false "mg5k1" "a7xq" "2025-10-12T09:00:00Z").2.success = true ∧
     ∃ t, (createTodo todos ⟨"  Buy milk ", " 2 liters "⟩ false "mg5k1" "a7xq" "2025-10-12T09:00:00Z").2.data = some t ∧
       t.completed = false ∧
       t.createdAt = t.updatedAt ∧
       t.title = ("  Buy milk " : String).trim ∧
       t.description = (" 2 liters " : String).trim ∧
       (createTodo todos ⟨"  Buy milk ", " 2 liters "⟩ false "mg5k1" "a7xq" "2025-10-12T09:00:00Z").1 = todos ++ [t]) :=
  ⟨rfl, C3_create_success todos ⟨"  Buy milk ", " 2 liters "⟩ false "mg5k1" "a7xq" "2025-10-12T09:00:00Z" rfl⟩

/-- C5: for each of the four operations and every outcome of the random draw,
either the envelope reports success or the collection after the call is
exactly the collection before it. -/
theorem C5_failure_leaves_collection_unchanged (todos : List Todo)
    (creq : CreateTodoRequest) (ureq : UpdateTodoRequest) (id : String)
    (draw : Bool) (timeComponent randomComponent nowC nowU : String) :
    ((fetchTodos todos draw).1 = todos) ∧
    ((createTodo todos creq draw timeComponent randomComponent nowC).2.success = true ∨
      (createTodo todos creq draw timeComponent randomComponent nowC).1 = todos) ∧
    ((updateTodo todos ureq draw nowU).2.success = true ∨
      (updateTodo todos ureq draw nowU).1 = todos) ∧
    ((deleteTodo todos id draw).2.success = true ∨
      (deleteTodo todos id draw).1 = todos) := by
  refine ⟨by simp [fetchTodos, shouldFail], ?_, ?_, ?_⟩
  · cases draw <;> simp [createTodo, shouldFail]
  · cases draw
    · cases hfind : findTodoIndex todos ureq.id with
      | none => simp [updateTodo, shouldFail, hfind]
      | some i =>
          cases hget : todos[i]? with
          | none => simp [updateTodo, shouldFail, hfind, hget]
          | some old => simp [updateTodo, shouldFail, hfind, hget]
    · simp [updateTodo, shouldFail]
  · cases draw
    · cases hfind : findTodoIndex todos id with
      | none => simp [deleteTodo, shouldFail, hfind]
      | some i => simp [deleteTodo, shouldFail, hfind]
    · simp [deleteTodo, shouldFail]

/-- C2: the spec invariant `updatedAt ≥ createdAt` fails on the seeded
collection itself: filtering the seed for records whose `updatedAt` is
chronologically strictly before their `createdAt` yields exactly the record
with id "1" (seeded with `createdAt` 11:00 and `updatedAt` 10:00 of the same
day). -/
theorem C2_seed_violates_timestamp_invariant :
    (todos.filter (fun t => decide (tsLt t.updatedAt t.createdAt))).map Todo.id = ["1"] := by
  decide

/-- C1 counterexample: with the id "missing" absent from the seed collection
and a failing random draw, the update envelope carries the generic injected
failure error, not the "not found" message the claim requires for every value
of the draw. -/
theorem C1_counterexample :
    "missing" ∉ todos.map Todo.id ∧
    (updateTodo todos ⟨"missing", none, none, none⟩ true "2025-10-12T09:00:00Z").2.success = false ∧
    (updateTodo todos ⟨"missing", none, none, none⟩ true "2025-10-12T09:00:00Z").2.error =
      some "Failed to update todo. Please try again." ∧
    (updateTodo todos ⟨"missing", none, none, none⟩ true "2025-10-12T09:00:00Z").2.error ≠
      some "Todo not found" := by
  decide

/-- C1 amended: update on an id referencing no record yields `success = false`
and leaves the collection (hence its length) unchanged for every value of the
random draw; the error is the "not found" message exactly when the draw does
not inject a failure (a failing draw yields the generic injected error
instead). -/
theorem C1_update_missing_id (todos : List Todo) (todoData : UpdateTodoRequest)
    (draw : Bool) (now : String)
    (h : todoData.id ∉ todos.map Todo.id) :
    (updateTodo todos todoData draw now).2.success = false ∧
    (updateTodo todos todoData draw now).1 = todos ∧
    (updateTodo todos todoData draw now).1.length = todos.length ∧
    (shouldFail none draw = false →
      (updateTodo todos todoData draw now).2.error = some "Todo not found") := by
  have hfind : findTodoIndex todos todoData.id = none := by
    rw [findTodoIndex_none_iff]
    intro t ht heq
    exact h (heq ▸ List.mem_map_of_mem Todo.id ht)
  cases draw
  · simp [updateTodo, shouldFail, hfind]
  · simp [updateTodo, shouldFail]

/-- C1 witness: the amended theorem applied to the seed collection, the id
"missing" and a non-failing draw. -/
theorem C1_update_missing_id_witness :
    "missing" ∉ todos.map Todo.id ∧
    ((updateTodo todos ⟨"missing", none, none, none⟩ false "2025-10-12T09:00:00Z").2.success = false ∧
     (updateTodo todos ⟨"missing", none, none, none⟩ false "2025-10-12T09:00:00Z").1 = todos ∧
     (updateTodo todos ⟨"missing", none, none, none⟩ false "2025-10-12T09:00:00Z").1.length = todos.length ∧
     (shouldFail none false = false →
       (updateTodo todos ⟨"missing", none, none, none⟩ false "2025-10-12T09:00:00Z").2.error =
         some "Todo not found")) :=
  ⟨by decide,
   C1_update_missing_id todos ⟨"missing", none, none, none⟩ false "2025-10-12T09:00:00Z" (by decide)⟩

/-- C10: every envelope returned by the four operations is well-formed (a
success carries `data` and `message` and no `error`; a failure carries a
non-empty `error` and no `data`), and every delete failure additionally
carries the fixed extra message "Failed to delete todo", whether the failure
was injected or not-found. -/
theorem C10_envelopes_well_formed (todos : List Todo)
    (creq : CreateTodoRequest) (ureq : UpdateTodoRequest) (id : String)
    (draw : Bool) (timeComponent randomComponent nowC nowU : String) :
    wellFormed (fetchTodos todos draw).2 ∧
    wellFormed (createTodo todos creq draw timeComponent randomComponent nowC).2 ∧
    wellFormed (updateTodo todos ureq draw nowU).2 ∧
    wellFormed (deleteTodo todos id draw).2 ∧
    ((deleteTodo todos id draw).2.success = true ∨
      (deleteTodo todos id draw).2.message = some "Failed to delete todo") := by
  refine ⟨by simp [wellFormed, fetchTodos, shouldFail], ?_, ?_, ?_, ?_⟩
  · cases draw <;> simp [wellFormed, createTodo, shouldFail]
  · cases draw
    · cases hfind : findTodoIndex todos ureq.id with
      | none => simp [wellFormed, updateTodo, shouldFail, hfind]
      | some i =>
          cases hget : todos[i]? with
          | none => simp [wellFormed, updateTodo, shouldFail, hfind, hget]
          | some old => simp [wellFormed, updateTodo, shouldFail, hfind, hget]
    · simp [wellFormed, updateTodo, shouldFail]
  · cases draw
    · cases hfind : findTodoIndex todos id with
      | none => simp [wellFormed, deleteTodo, shouldFail, hfind]
      | some i => simp [wellFormed, deleteTodo, shouldFail, hfind]
    · simp [wellFormed, deleteTodo, shouldFail]
  · cases draw
    · cases hfind : findTodoIndex todos id with
      | none => simp [deleteTodo, shouldFail, hfind]
      | some i => simp [deleteTodo, shouldFail, hfind]
    · simp [deleteTodo, shouldFail]

/-- C7: on a non-failing draw, delete of an id found at index i removes
exactly the record at that index (which carries that id) and shrinks the
collection by one; delete of an id present on no record leaves the length
unchanged and reports failure, and every delete failure envelope carries the
extra fixed message field. -/
theorem C7_delete_behavior (todos : List Todo) (id : String) (draw : Bool) :
    (∀ i, shouldFail none draw = false → findTodoIndex todos id = some i →
      ∃ old, todos[i]? = some old ∧ old.id = id ∧
        (deleteTodo todos id draw).1 = todos.eraseIdx i ∧
        (deleteTodo todos id draw).1.length + 1 = todos.length ∧
        (deleteTodo todos id draw).2.success = true) ∧
    (id ∉ todos.map Todo.id →
      (deleteTodo todos id draw).1.length = todos.length ∧
      (deleteTodo todos id draw).2.success = false ∧
      (deleteTodo todos id draw).2.message = some "Failed to delete todo") := by
  constructor
  · intro i hok hfind
    obtain ⟨old, hget, hid⟩ := findTodoIndex_some todos id i hfind
    have hlt : i < todos.length := findTodoIndex_lt_length todos id i hfind
    refine ⟨old, hget, hid, by simp [deleteTodo, hok, hfind], ?_, by simp [deleteTodo, hok, hfind]⟩
    simp [deleteTodo, hok, hfind, List.length_eraseIdx_of_lt hlt]
    omega
  · intro h
    have hfind : findTodoIndex todos id = none := by
      rw [findTodoIndex_none_iff]
      intro t ht heq
      exact h (heq ▸ List.mem_map_of_mem Todo.id ht)
    cases draw
    · simp [deleteTodo, shouldFail, hfind]
    · simp [deleteTodo, shouldFail]

/-- C4: on a non-failing draw, update of an id found at index i succeeds and
returns the merged record: its `id` and `createdAt` equal those of the old
record, its `updatedAt` is the strictly later instant `now`, each supplied
field is overwritten with the supplied value, each unsupplied field keeps the
old record's value, and the collection is the old one with exactly position i
rewritten to the merged record. -/
theorem C4_update_existing_frame (todos : List Todo) (todoData : UpdateTodoRequest)
    (draw : Bool) (now : String) (i : Nat) (old : Todo)
    (hok : shouldFail none draw = false)
    (hfind : findTodoIndex todos todoData.id = some i)
    (hget : todos[i]? = some old)
    (hadv : tsLt old.updatedAt now) :
    (updateTodo todos todoData draw now).2.success = true ∧
    ∃ updated, (updateTodo todos todoData draw now).2.data = some updated ∧
      updated.id = old.id ∧
      updated.createdAt = old.createdAt ∧
      tsLt old.updatedAt updated.updatedAt ∧
      (todoData.title = none → updated.title = old.title) ∧
      (∀ v, todoData.title = some v → updated.title = v) ∧
      (todoData.description = none → updated.description = old.description) ∧
      (∀ v, todoData.description = some v → updated.description = v) ∧
      (todoData.completed = none → updated.completed = old.completed) ∧
      (∀ v, todoData.completed = some v → updated.completed = v) ∧
      (updateTodo todos todoData draw now).1 = todos.set i updated := by
  have hid : old.id = todoData.id := by
    obtain ⟨old', hget', hid'⟩ := findTodoIndex_some todos todoData.id i hfind
    rw [hget] at hget'
    exact (Option.some.injEq _ _ ▸ hget') ▸ hid'
  refine ⟨by simp [updateTodo, hok, hfind, hget], ?_⟩
  refine ⟨mergeTodo old todoData now, by simp [updateTodo, hok, hfind, hget], ?_, rfl, hadv, ?_, ?_, ?_, ?_, ?_, ?_, by simp [updateTodo, hok, hfind, hget]⟩
  · simp [mergeTodo, hid]
  · intro hnone; simp [mergeTodo, hnone]
  · intro v hv; simp [mergeTodo, hv]
  · intro hnone; simp [mergeTodo, hnone]
  · intro v hv; simp [mergeTodo, hv]
  · intro hnone; simp [mergeTodo, hnone]
  · intro v hv; simp [mergeTodo, hv]

/-- C4 witness: the frame theorem applied to the seed collection, a request
marking the record with id "1" completed, a non-failing draw and a strictly
later `now`. -/
theorem C4_update_existing_frame_witness :
    shouldFail none false = false ∧
    findTodoIndex todos "1" = some 0 ∧
    todos[0]? = some { id := "1", title := "Go to the gym",
                       description := "Build up my body for summer time",
                       completed := false, createdAt := "2025-09-01T11:00:00Z",
                       updatedAt := "2025-09-01T10:00:00Z" } ∧
    tsLt "2025-09-01T10:00:00Z" "2025-10-12T09:00:00Z" ∧
    ((updateTodo todos ⟨"1", none, none, some true⟩ false "2025-10-12T09:00:00Z").2.success = true ∧
     ∃ updated, (updateTodo todos ⟨"1", none, none, some true⟩ false "2025-10-12T09:00:00Z").2.data = some updated ∧
       updated.id = "1" ∧
       updated.createdAt = "2025-09-01T11:00:00Z" ∧
       tsLt "2025-09-01T10:00:00Z" updated.updatedAt ∧
       ((none : Option String) = none → updated.title = "Go to the gym") ∧
       (∀ v, (none : Option String) = some v → updated.title = v) ∧
       ((none : Option String) = none → updated.description = "Build up my body for summer time") ∧
       (∀ v, (none : Option String) = some v → updated.description = v) ∧
       ((some true : Option Bool) = none → updated.completed = false) ∧
       (∀ v, (some true : Option Bool) = some v → updated.completed = v) ∧
       (updateTodo todos ⟨"1", none, none, some true⟩ false "2025-10-12T09:00:00Z").1 = todos.set 0 updated) :=
  ⟨rfl, by decide, by decide, by decide,
   C4_update_existing_frame todos ⟨"1", none, none, some true⟩ false "2025-10-12T09:00:00Z" 0
     { id := "1", title := "Go to the gym",
       description := "Build up my body for summer time",
       completed := false, createdAt := "2025-09-01T11:00:00Z",
       updatedAt := "2025-09-01T10:00:00Z" }
     rfl (by decide) (by decide) (by decide)⟩

/-- C8: running a successful update twice with the same payload (at instants
now1 then now2) gives a final record agreeing with the once-updated record on
id, title, description, completed and createdAt; only `updatedAt` (stamped
with the second instant) can differ. -/
theorem C8_update_idempotent (todos : List Todo) (todoData : UpdateTodoRequest)
    (d1 d2 : Bool) (now1 now2 : String) (i : Nat)
    (h1 : shouldFail none d1 = false) (h2 : shouldFail none d2 = false)
    (hfind : findTodoIndex todos todoData.id = some i) :
    ∃ t1 t2,
      (updateTodo todos todoData d1 now1).2.data = some t1 ∧
      (updateTodo (updateTodo todos todoData d1 now1).1 todoData d2 now2).2.data = some t2 ∧
      (updateTodo (updateTodo todos todoData d1 now1).1 todoData d2 now2).2.success = true ∧
      t2.id = t1.id ∧ t2.title = t1.title ∧ t2.description = t1.description ∧
      t2.completed = t1.completed ∧ t2.createdAt = t1.createdAt ∧
      t2.updatedAt = now2 := by
  obtain ⟨old, hget, hid⟩ := findTodoIndex_some todos todoData.id i hfind
  have hlt : i < todos.length := findTodoIndex_lt_length todos todoData.id i hfind
  have hr1 : (updateTodo todos todoData d1 now1).1 =
      todos.set i (mergeTodo old todoData now1) := by
    simp [updateTodo, h1, hfind, hget]
  have hd1 : (updateTodo todos todoData d1 now1).2.data =
      some (mergeTodo old todoData now1) := by
    simp [updateTodo, h1, hfind, hget]
  have hfind2 : findTodoIndex (todos.set i (mergeTodo old todoData now1)) todoData.id = some i :=
    findTodoIndex_set_self todos todoData.id i (mergeTodo old todoData now1) hfind rfl
  have hget2 : (todos.set i (mergeTodo old todoData now1))[i]? =
      some (mergeTodo old todoData now1) :=
    List.getElem?_set_self hlt
  refine ⟨mergeTodo old todoData now1,
          mergeTodo (mergeTodo old todoData now1) todoData now2,
          hd1, ?_, ?_, rfl, ?_, ?_, ?_, rfl, rfl⟩
  · rw [hr1]; simp [updateTodo, h2, hfind2, hget2]
  · rw [hr1]; simp [updateTodo, h2, hfind2, hget2]
  · cases htit : todoData.title <;> simp [mergeTodo, htit]
  · cases hdes : todoData.description <;> simp [mergeTodo, hdes]
  · cases hcom : todoData.completed <;> simp [mergeTodo, hcom]

/-- C8 witness: the idempotence theorem applied to the seed collection and a
payload retitling the record with id "3", both draws non-failing. -/
theorem C8_update_idempotent_witness :
    shouldFail none false = false ∧
    findTodoIndex todos "3" = some 2 ∧
    (∃ t1 t2,
      (updateTodo todos ⟨"3", some "Polish my portfolio", none, none⟩ false "2025-10-12T09:00:00Z").2.data = some t1 ∧
      (updateTodo (updateTodo todos ⟨"3", some "Polish my portfolio", none, none⟩ false "2025-10-12T09:00:00Z").1
        ⟨"3", some "Polish my portfolio", none, none⟩ false "2025-10-12T09:05:00Z").2.data = some t2 ∧
      (updateTodo (updateTodo todos ⟨"3", some "Polish my portfolio", none, none⟩ false "2025-10-12T09:00:00Z").1
        ⟨"3", some "Polish my portfolio", none, none⟩ false "2025-10-12T09:05:00Z").2.success = true ∧
      t2.id = t1.id ∧ t2.title = t1.title ∧ t2.description = t1.description ∧
      t2.completed = t1.completed ∧ t2.createdAt = t1.createdAt ∧
      t2.updatedAt = "2025-10-12T09:05:00Z") :=
  ⟨rfl, by decide,
   C8_update_idempotent todos ⟨"3", some "Polish my portfolio", none, none⟩ false false
     "2025-10-12T09:00:00Z" "2025-10-12T09:05:00Z" 2 rfl rfl (by decide)⟩

/-- Each single operation keeps the ids pairwise distinct, provided a create
generates an id not already present (the code performs no uniqueness check, so
this freshness is an assumption, not something it enforces). -/
theorem runOp_preserves_idsNodup (l : List Todo) (op : Op) (draw : Bool)
    (h : idsNodup l)
    (hfresh : match op with
      | Op.create _ tc rc _ => generateId tc rc ∉ l.map Todo.id
      | _ => True) :
    idsNodup (runOp l op draw) := by
  cases op with
  | fetch => simpa [runOp, fetchTodos, shouldFail] using h
  | create req tc rc now =>
      cases draw with
      | true => simpa [runOp, createTodo, shouldFail] using h
      | false =>
          have : runOp l (Op.create req tc rc now) false =
              l ++ [{ id := generateId tc rc, title := req.title.trim,
                      description := req.description.trim, completed := false,
                      createdAt := now, updatedAt := now }] := by
            simp [runOp, createTodo, shouldFail]
          rw [idsNodup, this, List.map_append]
          exact nodup_append_singleton (l.map Todo.id) (generateId tc rc) h hfresh
  | update req now =>
      cases draw with
      | true => simpa [runOp, updateTodo, shouldFail] using h
      | false =>
          cases hfind : findTodoIndex l req.id with
          | none => simpa [runOp, updateTodo, shouldFail, hfind] using h
          | some i =>
              cases hget : l[i]? with
              | none => simpa [runOp, updateTodo, shouldFail, hfind, hget] using h
              | some old =>
                  have hstate : runOp l (Op.update req now) false =
                      l.set i (mergeTodo old req now) := by
                    simp [runOp, updateTodo, shouldFail, hfind, hget]
                  have hid : old.id = req.id := by
                    obtain ⟨old', hget', hid'⟩ := findTodoIndex_some l req.id i hfind
                    rw [hget] at hget'
                    cases hget'
                    exact hid'
                  have hmap : (l.set i (mergeTodo old req now)).map Todo.id = l.map Todo.id := by
                    rw [List.map_set]
                    apply set_getElem_self
                    rw [List.getElem?_map, hget]
                    simp [mergeTodo, hid]
                  rw [idsNodup, hstate, hmap]
                  exact h
  | delete id =>
      cases draw with
      | true => simpa [runOp, deleteTodo, shouldFail] using h
      | false =>
          cases hfind : findTodoIndex l id with
          | none => simpa [runOp, deleteTodo, shouldFail, hfind] using h
          | some i =>
              have hstate : runOp l (Op.delete id) false = l.eraseIdx i := by
                simp [runOp, deleteTodo, shouldFail, hfind]
              rw [idsNodup, hstate]
              exact List.Nodup.sublist ((List.eraseIdx_sublist l i).map Todo.id) h

/-- C9 counterexample: two successful creates whose generated ids coincide
(same timestamp component and same random component) leave the store with a
duplicated id, so id uniqueness does not hold for every sequence of random
draws. -/
theorem C9_counterexample :
    ¬ idsNodup (runOps todos
      [(Op.create ⟨"Buy milk", "2 liters"⟩ "mg5k1" "a7xq" "2025-10-12T09:00:00Z", false),
       (Op.create ⟨"Buy milk", "2 liters"⟩ "mg5k1" "a7xq" "2025-10-12T09:01:00Z", false)]) := by
  decide

/-- C9 amended: after any sequence of operations and draws, the ids in the
collection stay pairwise distinct provided the initial ids are pairwise
distinct and every create in the sequence happens to generate an id not
already present (the code performs no uniqueness check, so a colliding draw
silently produces a duplicate). -/
theorem C9_unique_ids_preserved (init : List Todo) (script : List (Op × Bool))
    (hinit : idsNodup init) (hfresh : FreshRun init script) :
    idsNodup (runOps init script) := by
  induction script generalizing init with
  | nil => exact hinit
  | cons p rest ih =>
      obtain ⟨op, draw⟩ := p
      obtain ⟨h1, h2⟩ := hfresh
      exact ih (runOp init op draw) (runOp_preserves_idsNodup init op draw hinit h1) h2

/-- C9 witness: the amended theorem applied to the seed collection and a
two-step script (one fresh create, one delete), both draws non-failing. -/
theorem C9_unique_ids_preserved_witness :
    idsNodup todos ∧
    FreshRun todos
      [(Op.create ⟨"Buy milk", "2 liters"⟩ "mg5k1" "a7xq" "2025-10-12T09:00:00Z", false),
       (Op.delete "2", false)] ∧
    idsNodup (runOps todos
      [(Op.create ⟨"Buy milk", "2 liters"⟩ "mg5k1" "a7xq" "2025-10-12T09:00:00Z", false),
       (Op.delete "2", false)]) :=
  ⟨by decide, ⟨by decide, by decide, trivial⟩,
   C9_unique_ids_preserved todos
     [(Op.create ⟨"Buy milk", "2 liters"⟩ "mg5k1" "a7xq" "2025-10-12T09:00:00Z", false),
      (Op.delete "2", false)]
     (by decide) ⟨by decide, by decide, trivial⟩⟩
